import Mathlib

set_option maxRecDepth 8000

/-!
# Verification of the VERDICOM PRO numeric pipeline

Shallow embedding of the numeric core of src/verdicom_pro.py: the sample
extractor (get_pixel_array), the window resolver (default_window), the
windowing engine (apply_window), the invert step of main, the statistics
expander of main, and the raster codec (to_pil).

Python floats are modelled as exact rationals; all concrete values appearing
in the claims are exactly representable, so no modelled behaviour depends on
floating-point rounding. NumPy scalar casts to uint8 are modelled as
reduction modulo 256 (faithful on the non-negative in-range values these
functions produce).
-/

deriving instance DecidableEq for Except

namespace Verdicom

/-- A value a pydicom dataset attribute can take: absent (hasattr false), a
scalar, or a pydicom MultiValue (list of candidate values). -/
inductive AttrValue where
  | absent : AttrValue
  | scalar : ℚ → AttrValue
  | multi : List ℚ → AttrValue
deriving DecidableEq

/-- hasattr(ds, name): true unless the attribute is absent. -/
def AttrValue.isPresent : AttrValue → Bool
  | AttrValue.absent => false
  | _ => true

/-- The slice of a pydicom dataset that the numeric pipeline reads: the raw
pixel sample array (flattened; every operation of the pipeline is
elementwise or flattening, so the flat view is sufficient) and the four
numeric attributes the code consults. -/
structure Dataset where
  pixelData : List ℚ
  rescaleIntercept : AttrValue
  rescaleSlope : AttrValue
  windowCenter : AttrValue
  windowWidth : AttrValue
deriving DecidableEq

/-- Models the Python expression float(getattr(ds, name, default)):
an absent attribute yields the default, a scalar converts, and float()
applied to a pydicom MultiValue raises TypeError (MultiValue is a sequence
and defines no dunder float). -/
def floatOfAttr (a : AttrValue) (dflt : ℚ) : Except String ℚ :=
  match a with
  | AttrValue.absent => Except.ok dflt
  | AttrValue.scalar v => Except.ok v
  | AttrValue.multi _ => Except.error "TypeError: float() argument must be a string or a number, not MultiValue"

/-- get_pixel_array (verdicom_pro.py lines 114-122): cast to float, read
RescaleIntercept (default 0.0) then RescaleSlope (default 1.0) via
float(getattr(...)), and apply arr * slope + intercept elementwise. -/
def get_pixel_array (ds : Dataset) : Except String (List ℚ) :=
  match floatOfAttr ds.rescaleIntercept 0 with
  | Except.error e => Except.error e
  | Except.ok intercept =>
    match floatOfAttr ds.rescaleSlope 1 with
    | Except.error e => Except.error e
    | Except.ok slope =>
      Except.ok (ds.pixelData.map (fun r => r * slope + intercept))

/-- Ascending sort, modelling the sorted view numpy takes of the data when
computing a percentile. -/
def sortAsc (xs : List ℚ) : List ℚ :=
  List.insertionSort (fun a b : ℚ => a ≤ b) xs

/-- np.percentile with the default linear-interpolation method on an already
sorted array: with n = length, virtual index h = (n-1) * q/100, lower index
i = floor h (clamped into range, as numpy only accepts q in [0,100], where
the floor is already in range) and upper index min (i+1) (n-1); the result
interpolates linearly between the two ranks. Empty input is out of numpy's
domain (it raises) and is mapped to 0 here; no theorem relies on it. -/
def percentileSorted (s : List ℚ) (q : ℚ) : ℚ :=
  if s.length = 0 then 0
  else
    let h : ℚ := ((s.length : ℚ) - 1) * (q / 100)
    let i : ℕ := min (Int.toNat ⌊h⌋) (s.length - 1)
    let j : ℕ := min (i + 1) (s.length - 1)
    s.getD i 0 + (h - (⌊h⌋ : ℚ)) * (s.getD j 0 - s.getD i 0)

/-- np.percentile(xs, q) with linear interpolation over the flattened data. -/
def percentile (xs : List ℚ) (q : ℚ) : ℚ :=
  percentileSorted (sortAsc xs) q

/-- The value the explicit-metadata path of default_window extracts from a
present attribute (verdicom_pro.py lines 133-140): float of the first
element when the attribute is a MultiValue, float of the scalar otherwise.
Absent is unreachable under the hasattr guard; an empty MultiValue raises
IndexError. -/
def firstValue : AttrValue → Except String ℚ
  | AttrValue.absent => Except.error "AttributeError"
  | AttrValue.scalar v => Except.ok v
  | AttrValue.multi [] => Except.error "IndexError: list index out of range"
  | AttrValue.multi (v :: _) => Except.ok v

/-- default_window (verdicom_pro.py lines 124-148): if the dataset has BOTH
WindowCenter and WindowWidth, return them (first element of a MultiValue,
scalar otherwise), with no clamping; otherwise fall back to percentiles of
the calibrated pixel array: center = (p99 + p1)/2, width = max 1 (p99 - p1). -/
def default_window (ds : Dataset) : Except String (ℚ × ℚ) :=
  if ds.windowCenter.isPresent && ds.windowWidth.isPresent then
    match firstValue ds.windowCenter with
    | Except.error e => Except.error e
    | Except.ok wc =>
      match firstValue ds.windowWidth with
      | Except.error e => Except.error e
      | Except.ok ww => Except.ok (wc, ww)
  else
    match get_pixel_array ds with
    | Except.error e => Except.error e
    | Except.ok arr =>
      Except.ok ((percentile arr 99 + percentile arr 1) / 2,
        max 1 (percentile arr 99 - percentile arr 1))

/-- np.clip(x, lo, hi) on a scalar: minimum(maximum(x, lo), hi). -/
def npClip (x lo hi : ℚ) : ℚ := min (max x lo) hi

/-- np.round on a scalar: round half to even (banker's rounding). -/
def roundHalfEven (q : ℚ) : ℤ :=
  if q - (⌊q⌋ : ℚ) < 1 / 2 then ⌊q⌋
  else if q - (⌊q⌋ : ℚ) > 1 / 2 then ⌊q⌋ + 1
  else if ⌊q⌋ % 2 = 0 then ⌊q⌋ else ⌊q⌋ + 1

/-- np.uint8 applied to an integer: reduction modulo 256. -/
def toUint8 (z : ℤ) : ℤ := z % 256

/-- apply_window (verdicom_pro.py lines 150-160): lower = center - width/2,
upper = center + width/2, clip every sample into [lower, upper], normalize
by (upper - lower), scale by 255, np.round, cast to uint8. Elementwise over
the flattened samples. The function raises nothing: every numpy operation
involved is total on its inputs (the only division is by the scalar
upper - lower, which on floats yields nan or inf rather than raising). -/
def apply_window (img : List ℚ) (center width : ℚ) : List ℤ :=
  let lower := center - width / 2
  let upper := center + width / 2
  img.map (fun x =>
    toUint8 (roundHalfEven ((npClip x lower upper - lower) / (upper - lower) * 255)))

/-- The windowing-plus-invert fragment of main (verdicom_pro.py lines
354-357), equalization disabled: img8 = apply_window arr c w; if invert
then img8 = 255 - img8 (uint8 arithmetic). -/
def render (img : List ℚ) (center width : ℚ) (invert : Bool) : List ℤ :=
  let img8 := apply_window img center width
  if invert then img8.map (fun v => toUint8 (255 - v)) else img8

/-- np.min over the flattened samples (0 on empty, outside numpy's domain). -/
def npMin (xs : List ℚ) : ℚ :=
  match xs with
  | [] => 0
  | x :: t => t.foldl min x

/-- np.max over the flattened samples (0 on empty, outside numpy's domain). -/
def npMax (xs : List ℚ) : ℚ :=
  match xs with
  | [] => 0
  | x :: t => t.foldl max x

/-- np.mean: sum divided by N. -/
def npMean (xs : List ℚ) : ℚ := xs.sum / xs.length

/-- Population variance, denominator N: the square of np.std. -/
def npVar (xs : List ℚ) : ℚ :=
  ((xs.map (fun x => (x - npMean xs) ^ 2)).sum) / xs.length

/-- The image modes PIL infers for uint8 arrays of the shapes this program
can feed it. -/
inductive PILMode where
  | L : PILMode
  | LA : PILMode
  | RGB : PILMode
  | RGBA : PILMode
deriving DecidableEq

/-- Number of channels of a PIL image mode. -/
def PILMode.channels : PILMode → ℕ
  | PILMode.L => 1
  | PILMode.LA => 2
  | PILMode.RGB => 3
  | PILMode.RGBA => 4

/-- A numpy array as the raster codec sees it: a shape (list of axis
extents) and the flattened data. -/
structure NDArray where
  shape : List ℕ
  data : List ℚ
deriving DecidableEq

/-- A PIL image: its mode together with the array it was built from. -/
structure PILImage where
  mode : PILMode
  shape : List ℕ
  data : List ℚ
deriving DecidableEq

/-- Mode inference of PIL Image.fromarray on uint8 data, by shape: 2-D (and
1-D) arrays give mode L, an (h, w, 2) array gives LA, (h, w, 3) gives RGB,
(h, w, 4) gives RGBA, and any other shape raises TypeError. -/
def fromarrayMode (shape : List ℕ) : Except String PILMode :=
  match shape with
  | [_] => Except.ok PILMode.L
  | [_, _] => Except.ok PILMode.L
  | [_, _, 2] => Except.ok PILMode.LA
  | [_, _, 3] => Except.ok PILMode.RGB
  | [_, _, 4] => Except.ok PILMode.RGBA
  | _ => Except.error "TypeError: Cannot handle this data type"

/-- np.squeeze at the shape level: drop every axis of extent 1. -/
def npSqueeze (shape : List ℕ) : List ℕ := shape.filter (fun d => d != 1)

/-- np.uint8(np.clip(q, 0, 255)): clip into [0, 255] then cast (truncation
toward zero, which on the clipped non-negative values is the floor). -/
def clipCast (q : ℚ) : ℚ := ((⌊npClip q 0 255⌋ : ℤ) : ℚ)

/-- to_pil (verdicom_pro.py lines 162-176): a 2-D array becomes an L-mode
image, a 3-D array with 3 channels becomes an RGB image, and anything else
falls back to np.squeeze plus np.uint8(np.clip(arr, 0, 255)) followed by
Image.fromarray with inferred mode (which raises when it cannot infer one). -/
def to_pil (a : NDArray) : Except String PILImage :=
  if a.shape.length == 2 then
    Except.ok ⟨PILMode.L, a.shape, a.data⟩
  else if a.shape.length == 3 && a.shape.getD 2 0 == 3 then
    Except.ok ⟨PILMode.RGB, a.shape, a.data⟩
  else
    match fromarrayMode (npSqueeze a.shape) with
    | Except.error e => Except.error e
    | Except.ok m => Except.ok ⟨m, npSqueeze a.shape, a.data.map clipCast⟩

/-! ## Concrete instances used by the claims -/

/-- The flattened array of integers 0..99, one each. -/
def samples100 : List ℚ := (List.range 100).map (fun n => (n : ℚ))

/-- A dataset with the 0..99 samples and no metadata at all. -/
def ds100 : Dataset :=
  ⟨samples100, AttrValue.absent, AttrValue.absent, AttrValue.absent, AttrValue.absent⟩

/-- A dataset carrying explicit window metadata with a width below 1. -/
def dsNarrow : Dataset :=
  ⟨[], AttrValue.absent, AttrValue.absent, AttrValue.scalar 40, AttrValue.scalar (1 / 2)⟩

/-- A two-sample dataset with no attributes. -/
def dsPlain : Dataset :=
  ⟨[5, 7], AttrValue.absent, AttrValue.absent, AttrValue.absent, AttrValue.absent⟩

/-- A dataset whose RescaleSlope is multi-valued. -/
def dsMultiSlope : Dataset :=
  ⟨[1], AttrValue.absent, AttrValue.multi [2, 3], AttrValue.absent, AttrValue.absent⟩

/-- A dataset with scalar rescale attributes (intercept 10, slope 2). -/
def dsRescale : Dataset :=
  ⟨[3, 4], AttrValue.scalar 10, AttrValue.scalar 2, AttrValue.absent, AttrValue.absent⟩

/-- A perfectly flat dataset: all samples equal to 7, no metadata. -/
def dsFlat : Dataset :=
  ⟨[7, 7, 7], AttrValue.absent, AttrValue.absent, AttrValue.absent, AttrValue.absent⟩

/-- A dataset that carries a WindowCenter but no WindowWidth. -/
def dsCenterOnly : Dataset :=
  ⟨[10, 20], AttrValue.absent, AttrValue.absent, AttrValue.scalar 40, AttrValue.absent⟩

/-- A 2x2 raster with four channels (no unit axes). -/
def raster4 : NDArray := ⟨[2, 2, 4], List.replicate 16 0⟩

/-- A 2x2 raster with five channels. -/
def raster5 : NDArray := ⟨[2, 2, 5], List.replicate 20 0⟩

/-! ## Supporting lemmas -/

theorem roundHalfEven_bounds {q : ℚ} (h0 : 0 ≤ q) (h255 : q ≤ 255) :
    0 ≤ roundHalfEven q ∧ roundHalfEven q ≤ 255 := by
  have hf0 : 0 ≤ ⌊q⌋ := Int.floor_nonneg.mpr h0
  have hfq : (⌊q⌋ : ℚ) ≤ q := Int.floor_le q
  have hcast : (⌊q⌋ : ℚ) ≤ 255 := le_trans hfq h255
  have hle : ⌊q⌋ ≤ 255 := by exact_mod_cast hcast
  unfold roundHalfEven
  split_ifs with h1 h2 h3
  · exact ⟨hf0, hle⟩
  · have hlt : (⌊q⌋ : ℚ) < 255 := by linarith
    have : ⌊q⌋ < 255 := by exact_mod_cast hlt
    constructor <;> omega
  · exact ⟨hf0, hle⟩
  · have heq : q - (⌊q⌋ : ℚ) = 1 / 2 := le_antisymm (not_lt.mp h2) (not_lt.mp h1)
    have hlt : (⌊q⌋ : ℚ) < 255 := by linarith
    have : ⌊q⌋ < 255 := by exact_mod_cast hlt
    constructor <;> omega

theorem toUint8_eq_self {z : ℤ} (h0 : 0 ≤ z) (h255 : z ≤ 255) : toUint8 z = z := by
  unfold toUint8
  exact Int.emod_eq_of_lt h0 (by omega)

theorem apply_window_mem_range {img : List ℚ} {c w : ℚ} (hw : 0 < w)
    {z : ℤ} (hz : z ∈ apply_window img c w) : 0 ≤ z ∧ z ≤ 255 := by
  simp only [apply_window, List.mem_map] at hz
  obtain ⟨x, _, rfl⟩ := hz
  have hlu : c - w / 2 < c + w / 2 := by linarith
  have hclo : c - w / 2 ≤ npClip x (c - w / 2) (c + w / 2) :=
    le_min (le_max_right x (c - w / 2)) hlu.le
  have hchi : npClip x (c - w / 2) (c + w / 2) ≤ c + w / 2 := min_le_right _ _
  have hden : (0 : ℚ) < (c + w / 2) - (c - w / 2) := by linarith
  have hn0 : 0 ≤ (npClip x (c - w / 2) (c + w / 2) - (c - w / 2)) /
      ((c + w / 2) - (c - w / 2)) := div_nonneg (by linarith) hden.le
  have hn1 : (npClip x (c - w / 2) (c + w / 2) - (c - w / 2)) /
      ((c + w / 2) - (c - w / 2)) ≤ 1 := (div_le_one hden).mpr (by linarith)
  have hq0 : 0 ≤ (npClip x (c - w / 2) (c + w / 2) - (c - w / 2)) /
      ((c + w / 2) - (c - w / 2)) * 255 := by nlinarith
  have hq255 : (npClip x (c - w / 2) (c + w / 2) - (c - w / 2)) /
      ((c + w / 2) - (c - w / 2)) * 255 ≤ 255 := by nlinarith
  obtain ⟨r0, r255⟩ := roundHalfEven_bounds hq0 hq255
  rw [toUint8_eq_self r0 r255]
  exact ⟨r0, r255⟩

theorem getD_eq_of_lt (s : List ℚ) {i : ℕ} (h : i < s.length) :
    s.getD i 0 = s.get ⟨i, h⟩ := by
  rw [List.getD_eq_getElem?_getD, List.getElem?_eq_getElem h]
  rfl

theorem percentileSorted_const {s : List ℚ} {v : ℚ} (hne : s ≠ [])
    (hall : ∀ x ∈ s, x = v) (q : ℚ) : percentileSorted s q = v := by
  have hlen : s.length ≠ 0 := fun h => hne (List.length_eq_zero.mp h)
  have hpos : 0 < s.length := Nat.pos_of_ne_zero hlen
  have hi : min (Int.toNat ⌊((s.length : ℚ) - 1) * (q / 100)⌋) (s.length - 1) < s.length :=
    Nat.lt_of_le_of_lt (min_le_right _ _) (Nat.sub_lt hpos Nat.one_pos)
  have hj : min (min (Int.toNat ⌊((s.length : ℚ) - 1) * (q / 100)⌋) (s.length - 1) + 1)
      (s.length - 1) < s.length :=
    Nat.lt_of_le_of_lt (min_le_right _ _) (Nat.sub_lt hpos Nat.one_pos)
  have gi : s.getD (min (Int.toNat ⌊((s.length : ℚ) - 1) * (q / 100)⌋) (s.length - 1)) 0 = v := by
    rw [getD_eq_of_lt s hi]
    exact hall _ (s.get_mem _ _)
  have gj : s.getD (min (min (Int.toNat ⌊((s.length : ℚ) - 1) * (q / 100)⌋) (s.length - 1) + 1)
      (s.length - 1)) 0 = v := by
    rw [getD_eq_of_lt s hj]
    exact hall _ (s.get_mem _ _)
  unfold percentileSorted
  rw [if_neg hlen]
  simp only
  rw [gi, gj]
  ring

theorem sortAsc_ne_nil {xs : List ℚ} (hne : xs ≠ []) : sortAsc xs ≠ [] := by
  intro h
  apply hne
  have hperm := List.perm_insertionSort (fun a b : ℚ => a ≤ b) xs
  rw [← List.length_eq_zero]
  rw [← hperm.length_eq]
  rw [sortAsc] at h
  rw [h]
  rfl

theorem sortAsc_all {xs : List ℚ} {v : ℚ} (hall : ∀ x ∈ xs, x = v) :
    ∀ x ∈ sortAsc xs, x = v := by
  intro x hx
  exact hall x ((List.perm_insertionSort (fun a b : ℚ => a ≤ b) xs).mem_iff.mp hx)

theorem percentile_const {xs : List ℚ} {v : ℚ} (hne : xs ≠ [])
    (hall : ∀ x ∈ xs, x = v) (q : ℚ) : percentile xs q = v :=
  percentileSorted_const (sortAsc_ne_nil hne) (sortAsc_all hall) q

theorem default_window_of_not_both {ds : Dataset}
    (h : (ds.windowCenter.isPresent && ds.windowWidth.isPresent) = false)
    {arr : List ℚ} (ha : get_pixel_array ds = Except.ok arr) :
    default_window ds =
      Except.ok ((percentile arr 99 + percentile arr 1) / 2,
        max 1 (percentile arr 99 - percentile arr 1)) := by
  unfold default_window
  rw [h, ha]
  rfl

theorem default_window_of_not_both_err {ds : Dataset}
    (h : (ds.windowCenter.isPresent && ds.windowWidth.isPresent) = false)
    {e : String} (he : get_pixel_array ds = Except.error e) :
    default_window ds = Except.error e := by
  unfold default_window
  rw [h, he]
  rfl

/-! ## The claims -/

unseal Rat.add Rat.sub Rat.mul Rat.inv in
/-- C1: for every dataset without window metadata, default_window returns
center = (p99 + p1)/2 and width = max 1 (p99 - p1) over the calibrated
samples, p1/p99 being the linear-interpolation percentiles; in particular
for the samples 0..99 applying apply_window with these exact resolved
parameters maps the sample 0 (the head) to raster value 0 and the sample 99
(the last) to raster value 255. -/
theorem default_window_percentile_fallback
    (ds : Dataset) (hc : ds.windowCenter = AttrValue.absent)
    (_hw : ds.windowWidth = AttrValue.absent)
    (arr : List ℚ) (ha : get_pixel_array ds = Except.ok arr) :
    default_window ds =
      Except.ok ((percentile arr 99 + percentile arr 1) / 2,
        max 1 (percentile arr 99 - percentile arr 1)) ∧
    (apply_window samples100 ((percentile samples100 99 + percentile samples100 1) / 2)
        (max 1 (percentile samples100 99 - percentile samples100 1))).head? = some 0 ∧
    (apply_window samples100 ((percentile samples100 99 + percentile samples100 1) / 2)
        (max 1 (percentile samples100 99 - percentile samples100 1))).getLast? = some 255 := by
  refine ⟨?_, by decide, by decide⟩
  apply default_window_of_not_both _ ha
  rw [hc]
  rfl

unseal Rat.add Rat.sub Rat.mul Rat.inv in
theorem default_window_percentile_fallback_witness :
    ds100.windowCenter = AttrValue.absent ∧ ds100.windowWidth = AttrValue.absent ∧
    get_pixel_array ds100 = Except.ok samples100 ∧
    (default_window ds100 =
      Except.ok ((percentile samples100 99 + percentile samples100 1) / 2,
        max 1 (percentile samples100 99 - percentile samples100 1)) ∧
    (apply_window samples100 ((percentile samples100 99 + percentile samples100 1) / 2)
        (max 1 (percentile samples100 99 - percentile samples100 1))).head? = some 0 ∧
    (apply_window samples100 ((percentile samples100 99 + percentile samples100 1) / 2)
        (max 1 (percentile samples100 99 - percentile samples100 1))).getLast? = some 255) :=
  ⟨rfl, rfl, by decide,
    default_window_percentile_fallback ds100 rfl rfl samples100 (by decide)⟩

unseal Rat.add Rat.sub Rat.mul Rat.inv in
/-- C2: apply_window computes lower = center - width/2 and
upper = center + width/2, clips every sample to that interval, normalizes by
(upper - lower), scales by 255, rounds and casts to uint8; in particular
with center 40 and width 80 a sample of 40 maps to 128, a sample of 0 maps
to 0 and a sample of 80 maps to 255. -/
theorem apply_window_formula_and_examples :
    (∀ (img : List ℚ) (c w : ℚ),
        apply_window img c w = img.map (fun x =>
          toUint8 (roundHalfEven ((npClip x (c - w / 2) (c + w / 2) - (c - w / 2)) /
            ((c + w / 2) - (c - w / 2)) * 255)))) ∧
    apply_window [40, 0, 80] 40 80 = [128, 0, 255] :=
  ⟨fun _ _ _ => rfl, by decide⟩

unseal Rat.add Rat.sub Rat.mul Rat.inv in
/-- C3 counterexample: the explicit-metadata path of default_window performs
no clamping at all: a dataset declaring WindowWidth 1/2 gets width 1/2 back,
below the claimed floor of 1. -/
theorem default_window_explicit_no_floor_cx :
    default_window dsNarrow = Except.ok (40, 1 / 2) ∧ (1 : ℚ) / 2 < 1 := by
  refine ⟨rfl, by norm_num⟩

/-- C3 amended: the width floor of 1.0 is enforced only on the
percentile-fallback path of default_window; the explicit-metadata path
returns the metadata values unmodified. -/
theorem default_window_fallback_width_floor
    (ds : Dataset) (h : (ds.windowCenter.isPresent && ds.windowWidth.isPresent) = false)
    (c w : ℚ) (hok : default_window ds = Except.ok (c, w)) : 1 ≤ w := by
  cases harr : get_pixel_array ds with
  | error e =>
    rw [default_window_of_not_both_err h harr] at hok
    exact Except.noConfusion hok
  | ok arr =>
    rw [default_window_of_not_both h harr] at hok
    injection hok with hpair
    injection hpair with h1 h2
    rw [← h2]
    exact le_max_left 1 _

unseal Rat.add Rat.sub Rat.mul Rat.inv in
theorem default_window_fallback_width_floor_witness :
    (dsPlain.windowCenter.isPresent && dsPlain.windowWidth.isPresent) = false ∧
    default_window dsPlain = Except.ok (6, 49 / 25) ∧ (1 : ℚ) ≤ 49 / 25 :=
  ⟨rfl, by decide,
    default_window_fallback_width_floor dsPlain rfl 6 (49 / 25) (by decide)⟩

/-- C4 counterexample: apply_window on a zero-element samples array does not
fail at all: it returns the empty raster (the code defines no
EmptyImageError and raises nothing on this input). -/
theorem apply_window_empty_cx : apply_window [] 40 80 = [] := rfl

/-- C4 amended: for every window parameters, apply_window accepts a
zero-element samples array and returns a zero-element raster rather than
failing. -/
theorem apply_window_empty_total (c w : ℚ) : apply_window [] c w = [] := rfl

/-- C5 counterexample: a dataset whose RescaleSlope is the MultiValue
[2, 3] makes get_pixel_array raise TypeError (float() rejects a MultiValue);
the first value 2 is not taken. -/
theorem get_pixel_array_multivalue_cx :
    get_pixel_array dsMultiSlope =
      Except.error "TypeError: float() argument must be a string or a number, not MultiValue" :=
  rfl

/-- C5 amended: get_pixel_array converts the raw array to float and applies
value = raw * slope + intercept elementwise, slope defaulting to 1.0 and
intercept to 0.0 when absent; a multi-valued RescaleSlope or
RescaleIntercept is not reduced to its first value but makes the float()
conversion raise. -/
theorem get_pixel_array_calibration
    (ds : Dataset) (slope intercept : ℚ)
    (hs : ds.rescaleSlope = AttrValue.absent ∧ slope = 1 ∨
      ds.rescaleSlope = AttrValue.scalar slope)
    (hi : ds.rescaleIntercept = AttrValue.absent ∧ intercept = 0 ∨
      ds.rescaleIntercept = AttrValue.scalar intercept) :
    get_pixel_array ds = Except.ok (ds.pixelData.map (fun r => r * slope + intercept)) := by
  rcases hs with ⟨h1, rfl⟩ | h1 <;> rcases hi with ⟨h2, rfl⟩ | h2 <;>
    simp [get_pixel_array, floatOfAttr, h1, h2]

theorem get_pixel_array_calibration_witness :
    (dsRescale.rescaleSlope = AttrValue.absent ∧ (2 : ℚ) = 1 ∨
      dsRescale.rescaleSlope = AttrValue.scalar 2) ∧
    (dsRescale.rescaleIntercept = AttrValue.absent ∧ (10 : ℚ) = 0 ∨
      dsRescale.rescaleIntercept = AttrValue.scalar 10) ∧
    get_pixel_array dsRescale =
      Except.ok (dsRescale.pixelData.map (fun r => r * 2 + 10)) :=
  ⟨Or.inr rfl, Or.inr rfl,
    get_pixel_array_calibration dsRescale 2 10 (Or.inr rfl) (Or.inr rfl)⟩

/-- C6: with equalization disabled and a positive width, the raster rendered
with invert on equals 255 minus the raster rendered with invert off,
elementwise: inversion acts on the uint8 raster after rounding. -/
theorem render_invert_involution (img : List ℚ) (c w : ℚ) (hwpos : 0 < w) :
    render img c w true = (render img c w false).map (fun v => 255 - v) := by
  show (apply_window img c w).map (fun v => toUint8 (255 - v)) =
    (apply_window img c w).map (fun v => 255 - v)
  apply List.map_congr_left
  intro v hv
  obtain ⟨h0, h255⟩ := apply_window_mem_range hwpos hv
  exact toUint8_eq_self (by omega) (by omega)

unseal Rat.add Rat.sub Rat.mul Rat.inv in
theorem render_invert_involution_witness :
    (0 : ℚ) < 80 ∧
    render [40, 0, 80] 40 80 true = (render [40, 0, 80] 40 80 false).map (fun v => 255 - v) :=
  ⟨by norm_num, render_invert_involution [40, 0, 80] 40 80 (by norm_num)⟩

/-- C7: for a dataset without window metadata whose calibrated samples are
non-empty and all equal, default_window returns exactly (that constant, 1) -
so width is at least 1 - and the division apply_window performs with the
resolved parameters is by upper - lower which is not zero. -/
theorem flat_samples_window_safe
    (ds : Dataset) (v : ℚ)
    (hc : ds.windowCenter = AttrValue.absent) (_hw : ds.windowWidth = AttrValue.absent)
    (arr : List ℚ) (ha : get_pixel_array ds = Except.ok arr)
    (hne : arr ≠ []) (hall : ∀ x ∈ arr, x = v) :
    default_window ds = Except.ok (v, 1) ∧
    (∀ c w0, default_window ds = Except.ok (c, w0) →
      1 ≤ w0 ∧ (c + w0 / 2) - (c - w0 / 2) ≠ 0) := by
  have hguard : (ds.windowCenter.isPresent && ds.windowWidth.isPresent) = false := by
    rw [hc]; rfl
  have hbase := default_window_of_not_both hguard ha
  rw [percentile_const hne hall 99, percentile_const hne hall 1] at hbase
  have hvv : (v + v) / 2 = v := by ring
  have hz : v - v = 0 := by ring
  rw [hvv, hz] at hbase
  have hmax : max (1 : ℚ) 0 = 1 := by norm_num
  rw [hmax] at hbase
  refine ⟨hbase, ?_⟩
  intro c w0 hok
  rw [hbase] at hok
  injection hok with hpair
  injection hpair with h1 h2
  refine ⟨le_of_eq h2, ?_⟩
  have hone : (c + w0 / 2) - (c - w0 / 2) = w0 := by ring
  rw [hone, ← h2]
  norm_num

unseal Rat.add Rat.sub Rat.mul Rat.inv in
theorem flat_samples_window_safe_witness :
    dsFlat.windowCenter = AttrValue.absent ∧ dsFlat.windowWidth = AttrValue.absent ∧
    get_pixel_array dsFlat = Except.ok [7, 7, 7] ∧
    ([7, 7, 7] : List ℚ) ≠ [] ∧ (∀ x ∈ ([7, 7, 7] : List ℚ), x = 7) ∧
    (default_window dsFlat = Except.ok (7, 1) ∧
    (∀ c w0, default_window dsFlat = Except.ok (c, w0) →
      1 ≤ w0 ∧ (c + w0 / 2) - (c - w0 / 2) ≠ 0)) :=
  ⟨rfl, rfl, by decide, by decide, by decide,
    flat_samples_window_safe dsFlat 7 rfl rfl [7, 7, 7] (by decide) (by decide) (by decide)⟩

unseal Rat.add Rat.sub Rat.mul Rat.inv in
/-- C8 counterexample: a 2x2 raster with 4 channels goes through the
fallback branch of to_pil and comes back as a valid RGBA image - 4 channels,
neither single-channel nor 3-channel - and a 2x2 raster with 5 channels
makes the conversion raise, propagating the error to the caller (the code
defines no UnsupportedShapeError). -/
theorem to_pil_four_channel_cx :
    to_pil raster4 = Except.ok ⟨PILMode.RGBA, [2, 2, 4], List.replicate 16 0⟩ ∧
    PILMode.channels PILMode.RGBA = 4 ∧
    to_pil raster5 = Except.error "TypeError: Cannot handle this data type" :=
  ⟨by decide, rfl, rfl⟩

/-- C8 amended: a 4-channel raster with no unit axes is handled by the
squeeze-and-clamp fallback of to_pil and yields a valid 4-channel RGBA
image without error; the result is not a single-channel or 3-channel image,
and channel counts whose shape PIL cannot infer (such as 5) propagate an
error. -/
theorem to_pil_four_channel_fallback (h w : ℕ) (hh : h ≠ 1) (hw2 : w ≠ 1) (d : List ℚ) :
    to_pil ⟨[h, w, 4], d⟩ =
      Except.ok ⟨PILMode.RGBA, [h, w, 4], d.map clipCast⟩ := by
  have hb1 : (h != 1) = true := by simp [hh]
  have hb2 : (w != 1) = true := by simp [hw2]
  simp only [to_pil, npSqueeze, List.filter, hb1, hb2]
  rfl

unseal Rat.add Rat.sub Rat.mul Rat.inv in
theorem to_pil_four_channel_fallback_witness :
    (2 ≠ 1) ∧ (2 ≠ 1) ∧
    to_pil ⟨[2, 2, 4], [300, -5, 1 / 2, 1000, 0, 7, 255, 256,
        99 / 2, 3, 3, 3, 3, 3, 3, 3]⟩ =
      Except.ok ⟨PILMode.RGBA, [2, 2, 4], ([300, -5, 1 / 2, 1000, 0, 7, 255, 256,
        99 / 2, 3, 3, 3, 3, 3, 3, 3] : List ℚ).map clipCast⟩ :=
  ⟨by decide, by decide,
    to_pil_four_channel_fallback 2 2 (by decide) (by decide) _⟩

unseal Rat.add Rat.sub Rat.mul Rat.inv in
/-- C9: on the samples [1,2,3,4,5] the statistics expander yields min 1,
max 5, mean 3, population variance 2 (so the population standard deviation,
its square root, is the square root of 2, denominator N not N-1), and the
linear-interpolation percentiles p10 = 1.4, p50 = 3, p90 = 4.6. -/
theorem statistics_example :
    npMin [1, 2, 3, 4, 5] = 1 ∧ npMax [1, 2, 3, 4, 5] = 5 ∧
    npMean [1, 2, 3, 4, 5] = 3 ∧ npVar [1, 2, 3, 4, 5] = 2 ∧
    percentile [1, 2, 3, 4, 5] 10 = 7 / 5 ∧
    percentile [1, 2, 3, 4, 5] 50 = 3 ∧
    percentile [1, 2, 3, 4, 5] 90 = 23 / 5 := by
  decide

/-- C10: the explicit-metadata path of default_window requires BOTH
WindowCenter and WindowWidth; when exactly one of the two is present the
present one is ignored and both center and width come from the percentile
fallback over the calibrated samples. -/
theorem default_window_requires_both
    (ds : Dataset) (hxor : ds.windowCenter.isPresent ≠ ds.windowWidth.isPresent)
    (arr : List ℚ) (ha : get_pixel_array ds = Except.ok arr) :
    default_window ds =
      Except.ok ((percentile arr 99 + percentile arr 1) / 2,
        max 1 (percentile arr 99 - percentile arr 1)) := by
  apply default_window_of_not_both _ ha
  cases hcv : ds.windowCenter.isPresent <;> cases hwv : ds.windowWidth.isPresent <;>
    simp_all

unseal Rat.add Rat.sub Rat.mul Rat.inv in
theorem default_window_requires_both_witness :
    (dsCenterOnly.windowCenter.isPresent ≠ dsCenterOnly.windowWidth.isPresent) ∧
    get_pixel_array dsCenterOnly = Except.ok [10, 20] ∧
    default_window dsCenterOnly =
      Except.ok ((percentile [10, 20] 99 + percentile [10, 20] 1) / 2,
        max 1 (percentile [10, 20] 99 - percentile [10, 20] 1)) :=
  ⟨by decide, by decide,
    default_window_requires_both dsCenterOnly (by decide) [10, 20] (by decide)⟩

end Verdicom
